import Mathlib

/-!
Verification of `gym_lowcostrobot/envs/reach_cube_env.py` (class `ReachCubeEnv`).

The environment wraps a MuJoCo simulation.  The simulation itself is an
external dependency, so the MuJoCo calls (`mj_forward`, `mj_step`) appear as
opaque function parameters, constrained only by the contracts the claims
need (e.g. `mj_forward` performs no time integration, hence preserves
`qpos` and `qvel`).  Floating-point arrays are embedded as exact rationals;
the Euclidean norm returned by `np.linalg.norm` is `Real.sqrt` of the
rational sum of squares.
-/

namespace ReachCube

/-- Modelled from the spec: the MuJoCo state for the one-cube scene.  The
joint layout comes from the scene description file `scene_one_cube.xml`,
which is an asset of the repository not present under `src/`; the spec and
the code of `reset` fix `qpos` as 13 entries (6 arm joints, then the cube
free joint `red_box_joint`: 3 position components and 4 quaternion
components) and `qvel` as the matching 12 velocity entries (6 arm, 6 free
joint).  The field `ee` models the slice
`data.joint("gripper_opening").qpos[:3]` that `step` reads as the
end-effector position; it is part of the simulator state and is updated by
the opaque simulator calls like the rest. -/
structure Data where
  qpos : Fin 13 → ℚ
  qvel : Fin 12 → ℚ
  ee : Fin 3 → ℚ

/-- The two action modes of the environment (`action_mode="joint"` or
`"ee"`). -/
inductive ActionMode where
  | joint : ActionMode
  | ee : ActionMode

/-- The environment: the MuJoCo data, the random source `np_random`
(modelled as a stream of unit rationals), and the configuration written by
`__init__` (`threshold_distance`, the object sampling range, the action
mode). -/
structure ReachCubeEnv where
  data : Data
  rng : Nat → ℚ
  object_low : Fin 3 → ℚ
  object_high : Fin 3 → ℚ
  threshold_distance : ℚ
  action_mode : ActionMode

/-- Modelled from the spec: `BaseRobotEnv.set_object_range` (the file
`base_env.py` is not under `src/`).  The spec says the object position is
sampled "uniformly within a configured rectangular range" driven by the
scalar `obj_xy_range`: the x and y bounds are `±obj_xy_range`; the height
bound is a fixed value, taken here as 0 since the spec does not name it
(the claims only use that the lower bound is at most the upper one). -/
def set_object_range (obj_xy_range : ℚ) : (Fin 3 → ℚ) × (Fin 3 → ℚ) :=
  (fun i => if i.val < 2 then -obj_xy_range else 0,
   fun i => if i.val < 2 then obj_xy_range else 0)

/-- `ReachCubeEnv.__init__` (lines 60-89): stores the action mode, sets
`threshold_distance = 0.01` and the object sampling range from
`obj_xy_range`.  The image/render configuration and the space declarations
have no runtime state beyond what the other definitions capture. -/
def init (d : Data) (rng : Nat → ℚ) (mode : ActionMode) (obj_xy_range : ℚ) :
    ReachCubeEnv :=
  { data := d
    rng := rng
    object_low := (set_object_range obj_xy_range).1
    object_high := (set_object_range obj_xy_range).2
    threshold_distance := 1/100
    action_mode := mode }

/-- Modelled from the spec: reseeding of the random source.  `reset` calls
`super().reset(seed=seed)` (gymnasium, external; `base_env.py` not under
`src/`), which deterministically reseeds `np_random` from the given seed.
The pseudo-random stream is a stand-in generator producing rationals in
`[0, 1)`. -/
def seedStream (seed : Nat) : Nat → ℚ :=
  fun i => (((seed + i) * 2654435761 + 12345) % 1000003 : Nat) / 1000003

/-- Modelled from the spec: `super().reset(seed, options)` reseeds
`np_random` when a seed is given and keeps the current random source when
`seed` is `None` (gymnasium contract). -/
def super_reset (e : ReachCubeEnv) (seed : Option Nat) : ReachCubeEnv :=
  match seed with
  | some k => { e with rng := seedStream k }
  | none => e

/-- Modelled from the spec: `self.np_random.uniform(low, high)` drawing a
3-vector, each component `low + (high - low) * u` with `u` a unit sample
from the stream. -/
def uniform3 (rng : Nat → ℚ) (low high : Fin 3 → ℚ) : Fin 3 → ℚ :=
  fun i => low i + (high i - low i) * rng i.val

/-- The object position sampled by `reset` (line 99): drawn from the random
source after the reseeding done by `super().reset`. -/
def sampled_object_pos (e : ReachCubeEnv) (seed : Option Nat) : Fin 3 → ℚ :=
  uniform3 (super_reset e seed).rng e.object_low e.object_high

/-- The `qpos` vector written by `reset` (lines 96-101): the six arm joints
set to the zero pose, then the sampled object position, then the identity
quaternion `[1, 0, 0, 0]`. -/
def resetQpos (objectPos : Fin 3 → ℚ) : Fin 13 → ℚ := fun i =>
  if h6 : i.val < 6 then 0
  else if h9 : i.val < 9 then objectPos ⟨i.val - 6, by omega⟩
  else if i.val = 9 then 1 else 0

/-- The observation bundle (with `image_state=None`, no image fields are
produced). -/
structure Obs where
  arm_qpos : List ℚ
  arm_qvel : List ℚ
  object_qpos : List ℚ
  object_qvel : List ℚ

/-- Modelled from the spec: `get_observation_dict_one_object` (defined in
`base_env.py`, not under `src/`).  Per the spec and the declared
observation space it packages the six arm joint positions and velocities
and the object's position and velocity read from the simulator state. -/
def get_observation_dict_one_object (d : Data) : Obs :=
  { arm_qpos := List.ofFn fun i : Fin 6 => d.qpos ⟨i.val, by omega⟩
    arm_qvel := List.ofFn fun i : Fin 6 => d.qvel ⟨i.val, by omega⟩
    object_qpos := List.ofFn fun i : Fin 3 => d.qpos ⟨6 + i.val, by omega⟩
    object_qvel := List.ofFn fun i : Fin 3 => d.qvel ⟨6 + i.val, by omega⟩ }

/-- `ReachCubeEnv.get_observation` (lines 111-112): returns the flat slice
`qpos[:8]`. -/
def get_observation (d : Data) : List ℚ :=
  List.ofFn fun i : Fin 8 => d.qpos ⟨i.val, by omega⟩

/-- `ReachCubeEnv.reset` (lines 91-109): reseed via `super().reset`, write
the arm zero pose, the sampled object position and the identity quaternion
into `qpos`, run a single `mujoco.mj_forward` pass (the opaque `forward`
parameter), and return the observation of the resulting state.  The random
stream advances past the three consumed samples. -/
def reset (forward : Data → Data) (e : ReachCubeEnv) (seed : Option Nat) :
    ReachCubeEnv × Obs :=
  let e1 := super_reset e seed
  let d1 : Data := { e1.data with qpos := resetQpos (sampled_object_pos e seed) }
  let d2 := forward d1
  ({ e1 with data := d2, rng := fun n => e1.rng (n + 3) },
   get_observation_dict_one_object d2)

/-- `np.clip` of one component to the interval `[lo, hi]`. -/
def clip (lo hi x : ℚ) : ℚ := max lo (min hi x)

/-- Modelled from the spec: `set_action_space_without_gripper`
(`base_env.py`, not under `src/`).  The class docstring declares a
5-dimensional box of target joint angles for `"joint"` mode and a
3-dimensional box of target end-effector coordinates for `"ee"` mode, each
component ranging over `[-1.0, 1.0]`. -/
def action_space_dim : ActionMode → Nat
  | ActionMode.joint => 5
  | ActionMode.ee => 3

/-- Membership of an action in the declared action space box for the
configured mode: the declared dimensionality, every component within
`[-1.0, 1.0]`. -/
def action_space_contains (m : ActionMode) (a : List ℚ) : Prop :=
  a.length = action_space_dim m ∧ ∀ x ∈ a, (-1 : ℚ) ≤ x ∧ x ≤ 1

/-- Modelled from the spec: `base_step_action_nograsp` (`base_env.py`, not
under `src/`).  Per the spec it clips the action to the declared
action-space bounds `[-1, 1]`, forwards the clipped values to the
simulator's actuation inputs and advances the simulation by a fixed number
of physics sub-steps; the simulation advance is the opaque `mjStep`
parameter, receiving the forwarded control vector. -/
def base_step_action_nograsp (mjStep : Data → List ℚ → Data) (d : Data)
    (action : List ℚ) : Data :=
  mjStep d (action.map (clip (-1) 1))

/-- The simulator state after the action is applied and the simulation
advanced, from which `step` reads back positions (lines 117-126). -/
def stepData (mjStep : Data → List ℚ → Data) (e : ReachCubeEnv)
    (action : List ℚ) : Data :=
  base_step_action_nograsp mjStep e.data action

/-- `self.data.joint("red_box_joint").qpos[:3]`: the cube position, the
first three entries of the free joint's `qpos` segment `qpos[6:13]`. -/
def cube_pos (d : Data) : Fin 3 → ℚ := fun i => d.qpos ⟨6 + i.val, by omega⟩

/-- `self.data.joint("gripper_opening").qpos[:3]`: the end-effector
position view of the state. -/
def ee_pos (d : Data) : Fin 3 → ℚ := d.ee

/-- The sum of squares under the Euclidean norm of line 126:
`np.linalg.norm(cube_pos - ee_pos)` squared. -/
def distanceSq (d : Data) : ℚ :=
  Finset.sum Finset.univ fun i : Fin 3 => (cube_pos d i - ee_pos d i) ^ 2

/-- `distance = np.linalg.norm(cube_pos - ee_pos)` (line 126). -/
noncomputable def distance (d : Data) : ℝ := Real.sqrt ((distanceSq d : ℚ) : ℝ)

/-- The tuple returned by `step`:
`(observation, reward, terminated, truncated, info)` minus the info dict. -/
structure StepOut where
  observation : Obs
  reward : ℝ
  terminated : Prop
  truncated : Bool

/-- `ReachCubeEnv.step` (lines 115-137): apply the action through
`base_step_action_nograsp`, read the new observation, compute the
cube/end-effector distance, return reward `-distance`,
`terminated = distance < threshold_distance` and `truncated = False`. -/
noncomputable def step (mjStep : Data → List ℚ → Data) (e : ReachCubeEnv)
    (action : List ℚ) : ReachCubeEnv × StepOut :=
  ({ e with data := stepData mjStep e action },
   { observation := get_observation_dict_one_object (stepData mjStep e action)
     reward := -(distance (stepData mjStep e action))
     terminated := distance (stepData mjStep e action) < ((e.threshold_distance : ℚ) : ℝ)
     truncated := false })

/-- Membership of an observation in the declared observation space
(lines 77-85), restricted to the fields produced with `image_state=None`:
`arm_qpos` within `[-π, π]`, the velocity fields and `object_qpos` within
`[-10, 10]`. -/
def obsInSpace (o : Obs) : Prop :=
  (∀ x ∈ o.arm_qpos, -Real.pi ≤ (x : ℝ) ∧ (x : ℝ) ≤ Real.pi) ∧
  (∀ x ∈ o.arm_qvel, (-10 : ℚ) ≤ x ∧ x ≤ 10) ∧
  (∀ x ∈ o.object_qpos, (-10 : ℚ) ≤ x ∧ x ≤ 10) ∧
  (∀ x ∈ o.object_qvel, (-10 : ℚ) ≤ x ∧ x ≤ 10)

/-- The flattened lengths of the field shapes declared by the observation
space dict (lines 77-85): two 240x320x3 images, `arm_qpos` and `arm_qvel`
of shape (6,), `object_qpos` and `object_qvel` of shape (3,). -/
def declared_field_lengths : List Nat := [240 * 320 * 3, 240 * 320 * 3, 6, 6, 3, 3]

/-- A concrete simulator state with all coordinates zero. -/
def d0 : Data := { qpos := fun _ => 0, qvel := fun _ => 0, ee := fun _ => 0 }

/-- A concrete simulator state whose velocities are far outside the
declared `[-10, 10]` bounds. -/
def dBig : Data := { qpos := fun _ => 0, qvel := fun _ => 100, ee := fun _ => 0 }

/-- A concrete environment built by `init` with the default
`obj_xy_range = 0.15`. -/
def env0 : ReachCubeEnv := init d0 (fun _ => 1/2) ActionMode.joint (15/100)

/-- Like `env0` but starting from the high-velocity state `dBig`. -/
def envBig : ReachCubeEnv := init dBig (fun _ => 1/2) ActionMode.joint (15/100)

/-! ### Helper lemmas -/

theorem seedStream_nonneg (s i : Nat) : 0 ≤ seedStream s i := by
  unfold seedStream
  positivity

theorem seedStream_le_one (s i : Nat) : seedStream s i ≤ 1 := by
  unfold seedStream
  rw [div_le_one (by norm_num)]
  have h := Nat.mod_lt ((s + i) * 2654435761 + 12345)
    (by norm_num : (0 : Nat) < 1000003)
  exact_mod_cast Nat.le_of_lt h

theorem super_reset_data (e : ReachCubeEnv) (seed : Option Nat) :
    (super_reset e seed).data = e.data := by
  cases seed <;> rfl

theorem super_reset_low (e : ReachCubeEnv) (seed : Option Nat) :
    (super_reset e seed).object_low = e.object_low := by
  cases seed <;> rfl

theorem super_reset_high (e : ReachCubeEnv) (seed : Option Nat) :
    (super_reset e seed).object_high = e.object_high := by
  cases seed <;> rfl

theorem super_reset_rng_range (e : ReachCubeEnv) (seed : Option Nat)
    (hrng : ∀ n, 0 ≤ e.rng n ∧ e.rng n ≤ 1) :
    ∀ n, 0 ≤ (super_reset e seed).rng n ∧ (super_reset e seed).rng n ≤ 1 := by
  cases seed with
  | none => exact hrng
  | some k => exact fun n => ⟨seedStream_nonneg k n, seedStream_le_one k n⟩

theorem uniform3_mem (rng : Nat → ℚ) (low high : Fin 3 → ℚ)
    (hr : ∀ n, 0 ≤ rng n ∧ rng n ≤ 1) (hlh : ∀ i, low i ≤ high i) (i : Fin 3) :
    low i ≤ uniform3 rng low high i ∧ uniform3 rng low high i ≤ high i := by
  obtain ⟨h0, h1⟩ := hr i.val
  have hd : 0 ≤ high i - low i := by linarith [hlh i]
  unfold uniform3
  constructor
  · nlinarith
  · nlinarith

theorem reset_data_qpos (forward : Data → Data) (e : ReachCubeEnv)
    (seed : Option Nat) (hf : ∀ d, (forward d).qpos = d.qpos) :
    (reset forward e seed).1.data.qpos = resetQpos (sampled_object_pos e seed) := by
  simp [reset, hf]

theorem reset_data_qvel (forward : Data → Data) (e : ReachCubeEnv)
    (seed : Option Nat) (hf : ∀ d, (forward d).qvel = d.qvel) :
    (reset forward e seed).1.data.qvel = e.data.qvel := by
  simp only [reset, hf]
  rw [show ({ (super_reset e seed).data with
      qpos := resetQpos (sampled_object_pos e seed) } : Data).qvel
        = (super_reset e seed).data.qvel from rfl, super_reset_data]

theorem reset_obs (forward : Data → Data) (e : ReachCubeEnv) (seed : Option Nat) :
    (reset forward e seed).2 =
      get_observation_dict_one_object (reset forward e seed).1.data := rfl

theorem resetQpos_arm (p : Fin 3 → ℚ) (i : Fin 13) (h : i.val < 6) :
    resetQpos p i = 0 := by
  simp [resetQpos, h]

theorem resetQpos_object (p : Fin 3 → ℚ) (i : Fin 3) :
    resetQpos p ⟨6 + i.val, by omega⟩ = p i := by
  have h6 : ¬ (6 + i.val < 6) := by omega
  have h9 : 6 + i.val < 9 := by omega
  have hi : (⟨6 + i.val - 6, by omega⟩ : Fin 3) = i := Fin.ext (by simp)
  simp only [resetQpos, h6, h9, dif_neg, dif_pos, hi]
  simp

theorem sampled_object_pos_mem (e : ReachCubeEnv) (seed : Option Nat)
    (hrng : ∀ n, 0 ≤ e.rng n ∧ e.rng n ≤ 1)
    (hlh : ∀ i, e.object_low i ≤ e.object_high i) (i : Fin 3) :
    e.object_low i ≤ sampled_object_pos e seed i ∧
      sampled_object_pos e seed i ≤ e.object_high i := by
  unfold sampled_object_pos
  exact uniform3_mem _ _ _ (super_reset_rng_range e seed hrng) hlh i

theorem env0_range_facts :
    (∀ i : Fin 3, env0.object_low i ≤ env0.object_high i) ∧
    (∀ i : Fin 3, (-10 : ℚ) ≤ env0.object_low i) ∧
    (∀ i : Fin 3, env0.object_high i ≤ 10) := by
  refine ⟨?_, ?_, ?_⟩ <;> intro i <;> fin_cases i <;>
    norm_num [env0, init, set_object_range]

theorem resetQpos_quat (p : Fin 3 → ℚ) :
    resetQpos p ⟨9, by omega⟩ = 1 ∧ resetQpos p ⟨10, by omega⟩ = 0 ∧
      resetQpos p ⟨11, by omega⟩ = 0 ∧ resetQpos p ⟨12, by omega⟩ = 0 := by
  refine ⟨?_, ?_, ?_, ?_⟩ <;> norm_num [resetQpos]

/-! ### Claim theorems -/

/-- C1: for every call to `step`, the returned `terminated` flag holds
exactly when the Euclidean distance between the end-effector position and
the cube position, computed after advancing the simulation, is strictly
below the configured threshold distance 0.01. -/
theorem C1_step_terminated_iff (mjStep : Data → List ℚ → Data) (d : Data)
    (rng : Nat → ℚ) (mode : ActionMode) (r : ℚ) (action : List ℚ) :
    ((step mjStep (init d rng mode r) action).2.terminated ↔
      Real.sqrt ((distanceSq (stepData mjStep (init d rng mode r) action) : ℚ) : ℝ)
        < (1/100 : ℝ)) := by
  have h : (step mjStep (init d rng mode r) action).2.terminated =
      (distance (stepData mjStep (init d rng mode r) action)
        < (((1 : ℚ)/100 : ℚ) : ℝ)) := rfl
  rw [h]
  unfold distance
  norm_num

/-- C2: for every call to `step`, the returned reward is the negation of
the Euclidean norm of the difference between the cube position
(`red_box_joint` `qpos[:3]`) and the end-effector position
(`gripper_opening` `qpos[:3]`) read back after the simulation advance. -/
theorem C2_step_reward_eq (mjStep : Data → List ℚ → Data) (e : ReachCubeEnv)
    (action : List ℚ) :
    (step mjStep e action).2.reward =
      -(Real.sqrt ((distanceSq (stepData mjStep e action) : ℚ) : ℝ)) := rfl

/-- C3: for every call to `step`, whatever the action and simulator state,
the returned `truncated` flag is `false`. -/
theorem C3_step_truncated_false (mjStep : Data → List ℚ → Data)
    (e : ReachCubeEnv) (action : List ℚ) :
    (step mjStep e action).2.truncated = false := rfl

/-- C8: for every call to `step`, the returned reward is at most 0, being
the negation of a non-negative Euclidean norm. -/
theorem C8_step_reward_nonpos (mjStep : Data → List ℚ → Data)
    (e : ReachCubeEnv) (action : List ℚ) :
    (step mjStep e action).2.reward ≤ 0 := by
  show -(distance (stepData mjStep e action)) ≤ 0
  exact neg_nonpos.mpr (Real.sqrt_nonneg _)

/-- C9: `step` accepts every action, including out-of-range ones, without
rejecting it: the state forwarded to the simulator is driven by the action
clipped componentwise to the declared action-space bounds `[-1, 1]`; every
forwarded component lies within those bounds, and in-range components are
forwarded unchanged. -/
theorem C9_step_clips_action (mjStep : Data → List ℚ → Data)
    (e : ReachCubeEnv) (action : List ℚ) :
    ((step mjStep e action).1.data = mjStep e.data (action.map (clip (-1) 1))) ∧
    (∀ x ∈ action.map (clip (-1) 1), (-1 : ℚ) ≤ x ∧ x ≤ 1) ∧
    (∀ x : ℚ, -1 ≤ x → x ≤ 1 → clip (-1) 1 x = x) := by
  refine ⟨rfl, ?_, ?_⟩
  · intro x hx
    simp only [List.mem_map] at hx
    obtain ⟨y, _, rfl⟩ := hx
    unfold clip
    exact ⟨le_max_left _ _, max_le (by norm_num) (min_le_left _ _)⟩
  · intro x h1 h2
    unfold clip
    rw [min_eq_right h2, max_eq_right h1]

/-- Witness for C9 at the out-of-range action `[3/2]`. -/
theorem C9_witness :
    (-1 : ℚ) ≤ clip (-1) 1 (3/2) ∧ clip (-1) 1 (3/2) ≤ 1 :=
  (C9_step_clips_action (fun d _ => d) env0 [3/2]).2.1 (clip (-1) 1 (3/2))
    (by simp)

/-- C4: for every call to `reset` (any seed), the six arm joint entries of
`qpos` are set to the all-zero neutral pose, the object position entries
carry the uniformly sampled object position, the object orientation is the
identity quaternion `[1, 0, 0, 0]`, and — the only simulator call being a
single forward-kinematics pass, which performs no time integration and so
preserves the generalized coordinates — the returned state carries exactly
these positions with the velocities untouched, and the returned observation
reads that state. -/
theorem C4_reset_behavior (forward : Data → Data) (e : ReachCubeEnv)
    (seed : Option Nat)
    (hf : ∀ d, (forward d).qpos = d.qpos ∧ (forward d).qvel = d.qvel) :
    (∀ i : Fin 13, i.val < 6 → (reset forward e seed).1.data.qpos i = 0) ∧
    (∀ i : Fin 3, (reset forward e seed).1.data.qpos ⟨6 + i.val, by omega⟩ =
      sampled_object_pos e seed i) ∧
    ((reset forward e seed).1.data.qpos ⟨9, by omega⟩ = 1 ∧
      (reset forward e seed).1.data.qpos ⟨10, by omega⟩ = 0 ∧
      (reset forward e seed).1.data.qpos ⟨11, by omega⟩ = 0 ∧
      (reset forward e seed).1.data.qpos ⟨12, by omega⟩ = 0) ∧
    (reset forward e seed).1.data.qvel = e.data.qvel ∧
    (reset forward e seed).2 =
      get_observation_dict_one_object (reset forward e seed).1.data := by
  have hq := reset_data_qpos forward e seed (fun d => (hf d).1)
  refine ⟨?_, ?_, ?_, reset_data_qvel forward e seed (fun d => (hf d).2),
    reset_obs forward e seed⟩
  · intro i hi
    rw [hq]
    exact resetQpos_arm _ i hi
  · intro i
    rw [hq]
    exact resetQpos_object _ i
  · simp only [hq]
    exact resetQpos_quat _

/-- Witness for C4 with the identity standing in for `mj_forward`. -/
theorem C4_witness :
    (reset (fun d => d) env0 (some 5)).1.data.qpos ⟨0, by omega⟩ = 0 ∧
    (reset (fun d => d) env0 (some 5)).1.data.qpos ⟨9, by omega⟩ = 1 ∧
    (reset (fun d => d) env0 (some 5)).1.data.qvel = env0.data.qvel := by
  have h := C4_reset_behavior (fun d => d) env0 (some 5) (fun d => ⟨rfl, rfl⟩)
  exact ⟨h.1 ⟨0, by omega⟩ (by decide), h.2.2.1.1, h.2.2.2.1⟩

/-- C5: after every call to `reset` on an environment whose random source
produces unit samples and whose range is ordered, the object position
written into `qpos[6:9]` lies componentwise between `object_low` and
`object_high`. -/
theorem C5_reset_object_in_range (forward : Data → Data) (e : ReachCubeEnv)
    (seed : Option Nat) (hf : ∀ d, (forward d).qpos = d.qpos)
    (hrng : ∀ n, 0 ≤ e.rng n ∧ e.rng n ≤ 1)
    (hlh : ∀ i, e.object_low i ≤ e.object_high i) (i : Fin 3) :
    e.object_low i ≤ (reset forward e seed).1.data.qpos ⟨6 + i.val, by omega⟩ ∧
      (reset forward e seed).1.data.qpos ⟨6 + i.val, by omega⟩ ≤
        e.object_high i := by
  rw [reset_data_qpos forward e seed hf, resetQpos_object]
  exact sampled_object_pos_mem e seed hrng hlh i

/-- Witness for C5 at the environment `env0` built with the default
`obj_xy_range = 0.15`. -/
theorem C5_witness :
    env0.object_low ⟨0, by omega⟩ ≤
        (reset (fun d => d) env0 (some 0)).1.data.qpos ⟨6, by omega⟩ ∧
      (reset (fun d => d) env0 (some 0)).1.data.qpos ⟨6, by omega⟩ ≤
        env0.object_high ⟨0, by omega⟩ :=
  C5_reset_object_in_range (fun d => d) env0 (some 0) (fun _ => rfl)
    (fun _ => ⟨(by norm_num : (0 : ℚ) ≤ 1/2), (by norm_num : (1 : ℚ)/2 ≤ 1)⟩)
    env0_range_facts.1 ⟨0, by omega⟩

/-- C6 counterexample: resetting from a state whose velocities are 100
yields an observation whose `arm_qvel` entries equal 100, outside the
declared `[-10, 10]` bounds — `reset` writes `qpos` only and never clamps
or clears the velocities, so the claim fails as stated. -/
theorem C6_counterexample :
    ¬ obsInSpace (reset (fun d => d) envBig (some 0)).2 := by
  intro h
  have hm : (100 : ℚ) ∈ (reset (fun d => d) envBig (some 0)).2.arm_qvel := by
    decide
  have h100 := (h.2.1 100 hm).2
  norm_num at h100

/-- C6 amended: the position fields of the observation returned by `reset`
lie within their declared bounds — every `arm_qpos` entry is within
`[-π, π]` and every `object_qpos` entry is within `[-10, 10]` whenever the
configured range sits inside `[-10, 10]`; the velocity fields are carried
over unchanged from the pre-reset state and are not clamped. -/
theorem C6_reset_obs_positions_in_space (forward : Data → Data)
    (e : ReachCubeEnv) (seed : Option Nat)
    (hf : ∀ d, (forward d).qpos = d.qpos)
    (hrng : ∀ n, 0 ≤ e.rng n ∧ e.rng n ≤ 1)
    (hlh : ∀ i, e.object_low i ≤ e.object_high i)
    (hlow : ∀ i, (-10 : ℚ) ≤ e.object_low i)
    (hhigh : ∀ i, e.object_high i ≤ 10) :
    (∀ x ∈ (reset forward e seed).2.arm_qpos,
      -Real.pi ≤ (x : ℝ) ∧ (x : ℝ) ≤ Real.pi) ∧
    (∀ x ∈ (reset forward e seed).2.object_qpos,
      (-10 : ℚ) ≤ x ∧ x ≤ 10) := by
  have hq := reset_data_qpos forward e seed hf
  constructor
  · intro x hx
    rw [reset_obs] at hx
    simp only [get_observation_dict_one_object, List.mem_ofFn, hq] at hx
    obtain ⟨i, hi⟩ := hx
    have hi2 : resetQpos (sampled_object_pos e seed) ⟨(i : Nat), by omega⟩ = x := hi
    rw [resetQpos_arm _ _ i.isLt] at hi2
    rw [← hi2]
    push_cast
    exact ⟨neg_nonpos.mpr Real.pi_nonneg, Real.pi_nonneg⟩
  · intro x hx
    rw [reset_obs] at hx
    simp only [get_observation_dict_one_object, List.mem_ofFn, hq] at hx
    obtain ⟨i, hi⟩ := hx
    have hi2 : resetQpos (sampled_object_pos e seed) ⟨6 + (i : Nat), by omega⟩ = x := hi
    rw [resetQpos_object] at hi2
    rw [← hi2]
    have hb := sampled_object_pos_mem e seed hrng hlh i
    exact ⟨le_trans (hlow i) hb.1, le_trans hb.2 (hhigh i)⟩

/-- Witness for the amended C6: the first arm entry of the reset
observation of `env0` is 0, within `[-π, π]`. -/
theorem C6_witness :
    -Real.pi ≤ ((0 : ℚ) : ℝ) ∧ ((0 : ℚ) : ℝ) ≤ Real.pi :=
  (C6_reset_obs_positions_in_space (fun d => d) env0 (some 1) (fun _ => rfl)
    (fun _ => ⟨(by norm_num : (0 : ℚ) ≤ 1/2), (by norm_num : (1 : ℚ)/2 ≤ 1)⟩)
    env0_range_facts.1 env0_range_facts.2.1 env0_range_facts.2.2).1 0 (by decide)

/-- C7 counterexample: `get_observation` returns the flat slice `qpos[:8]`,
whose length 8 matches no field shape of the declared Dict observation
space, so the claim fails for this observation function. -/
theorem C7_counterexample :
    (get_observation d0).length = 8 ∧
      (get_observation d0).length ∉ declared_field_lengths := by
  decide

/-- C7 amended: the dict observations have exactly the declared field
shapes (`arm_qpos` and `arm_qvel` of length 6, `object_qpos` and
`object_qvel` of length 3), and every action in the declared action space
has the dimensionality declared for the configured mode. -/
theorem C7_dict_obs_and_action_dims (d : Data) (m : ActionMode) (a : List ℚ)
    (ha : action_space_contains m a) :
    (get_observation_dict_one_object d).arm_qpos.length = 6 ∧
    (get_observation_dict_one_object d).arm_qvel.length = 6 ∧
    (get_observation_dict_one_object d).object_qpos.length = 3 ∧
    (get_observation_dict_one_object d).object_qvel.length = 3 ∧
    a.length = action_space_dim m :=
  ⟨by simp [get_observation_dict_one_object],
   by simp [get_observation_dict_one_object],
   by simp [get_observation_dict_one_object],
   by simp [get_observation_dict_one_object], ha.1⟩

/-- Witness for the amended C7 at the zero action of joint mode. -/
theorem C7_witness :
    (get_observation_dict_one_object d0).arm_qpos.length = 6 ∧
    (get_observation_dict_one_object d0).arm_qvel.length = 6 ∧
    (get_observation_dict_one_object d0).object_qpos.length = 3 ∧
    (get_observation_dict_one_object d0).object_qvel.length = 3 ∧
    ([0, 0, 0, 0, 0] : List ℚ).length = action_space_dim ActionMode.joint :=
  C7_dict_obs_and_action_dims d0 ActionMode.joint [0, 0, 0, 0, 0]
    ⟨rfl, by decide⟩

/-- C10: `reset` is deterministic given the seed — two resets with the same
non-`None` seed on identically configured environments sample the same
object position and write the same `qpos` state, regardless of the
environments' prior states or random sources. -/
theorem C10_reset_seed_deterministic (e1 e2 : ReachCubeEnv) (k : Nat)
    (f1 f2 : Data → Data)
    (hf1 : ∀ d, (f1 d).qpos = d.qpos) (hf2 : ∀ d, (f2 d).qpos = d.qpos)
    (hlow : e1.object_low = e2.object_low)
    (hhigh : e1.object_high = e2.object_high) :
    sampled_object_pos e1 (some k) = sampled_object_pos e2 (some k) ∧
    ∀ i : Fin 13, (reset f1 e1 (some k)).1.data.qpos i =
      (reset f2 e2 (some k)).1.data.qpos i := by
  have hs : sampled_object_pos e1 (some k) = sampled_object_pos e2 (some k) := by
    unfold sampled_object_pos
    simp only [super_reset]
    rw [hlow, hhigh]
  refine ⟨hs, fun i => ?_⟩
  rw [reset_data_qpos f1 e1 (some k) hf1,
    reset_data_qpos f2 e2 (some k) hf2, hs]

/-- Witness for C10: `env0` and `envBig` share the configuration but differ
in state and produce the same sample for seed 7. -/
theorem C10_witness :
    sampled_object_pos env0 (some 7) = sampled_object_pos envBig (some 7) :=
  (C10_reset_seed_deterministic env0 envBig 7 (fun d => d) (fun d => d)
    (fun _ => rfl) (fun _ => rfl) rfl rfl).1

end ReachCube
